import Mathlib

/-!
Shallow embedding of the order/delivery subsystem of the Thela Bartika food
ordering application (Django app `restaurant`): models, checkout, the REST
order endpoints, the Stripe webhook handler, the feedback sentiment
classifier, and the WebSocket tracking consumers.  Monetary `Decimal` values
are modelled as exact rationals; database ids as naturals; database tables as
lists of rows in insertion order.
-/

set_option allowUnsafeReducibility true

attribute [semireducible] Rat.add Rat.mul Rat.div Rat.inv Rat.sub Rat.neg

namespace FoodOrdering

/-- `restaurant.models.FoodItem`: the fields relevant to ordering
(`price`, `stock`, `is_available`). -/
structure FoodItem where
  id : Nat
  price : ℚ
  stock : ℤ
  isAvailable : Bool
  deriving Repr, DecidableEq

/-- `restaurant.models.Cart`: one (user, food_item) line with a quantity. -/
structure CartLine where
  userId : Nat
  itemId : Nat
  quantity : Nat
  deriving Repr, DecidableEq

/-- `restaurant.models.Order`: the monetary breakdown and lifecycle fields.
`status` and `payment_status` are stored as strings exactly as in the code. -/
structure Order where
  id : Nat
  userId : Nat
  totalPrice : ℚ
  tax : ℚ
  deliveryFee : ℚ
  deliveryAddress : String
  phone : String
  status : String
  paymentStatus : String
  deriving Repr, DecidableEq

/-- `restaurant.models.OrderItem`: immutable line snapshot with the unit
price copied from the food item at creation time. -/
structure OrderItem where
  orderId : Nat
  itemId : Nat
  quantity : Nat
  price : ℚ
  deriving Repr, DecidableEq

/-- `restaurant.models.DeliveryStatus`: one appended log row per transition. -/
structure DeliveryStatusEntry where
  orderId : Nat
  status : String
  description : String
  deriving Repr, DecidableEq

/-- The relational state touched by the order lifecycle.  Each table is a
list of rows in insertion order; `nextId` models the autoincrement primary
key for `Order`. -/
structure St where
  items : List FoodItem
  cart : List CartLine
  orders : List Order
  orderItems : List OrderItem
  deliveryLog : List DeliveryStatusEntry
  nextId : Nat
  deriving Repr, DecidableEq

/-- `Cart.objects.filter(user=request.user)`. -/
def userCart (st : St) (uid : Nat) : List CartLine :=
  st.cart.filter (fun l => l.userId == uid)

/-- Price of a food item looked up by id (the `cart_item.food_item.price`
foreign-key dereference); 0 if the row is absent. -/
def priceOf (st : St) (iid : Nat) : ℚ :=
  match st.items.find? (fun it => it.id == iid) with
  | some it => it.price
  | none => 0

/-- `subtotal = sum(item.subtotal() for item in cart_items)` where
`Cart.subtotal` is `quantity * food_item.price`. -/
def cartSubtotal (st : St) (uid : Nat) : ℚ :=
  ((userCart st uid).map (fun l => (l.quantity : ℚ) * priceOf st l.itemId)).sum

/-- `Order.grand_total`: `total_price + tax + delivery_fee`
(models.py line 275). -/
def Order.grandTotal (o : Order) : ℚ :=
  o.totalPrice + o.tax + o.deliveryFee

/-- `Order.can_cancel`: `status in ['pending', 'confirmed']`
(models.py line 282). -/
def Order.canCancel (o : Order) : Bool :=
  o.status == "pending" || o.status == "confirmed"

/-- `Order.objects.get(id=...)` / `get_object_or_404`. -/
def findOrder (st : St) (oid : Nat) : Option Order :=
  st.orders.find? (fun o => o.id == oid)

/-- Sum over the order items belonging to order `oid` of
`quantity * price` (`OrderItem.subtotal`). -/
def orderItemsSubtotal (st : St) (oid : Nat) : ℚ :=
  ((st.orderItems.filter (fun oi => oi.orderId == oid)).map
    (fun oi => (oi.quantity : ℚ) * oi.price)).sum

/-- `food.stock -= cart_item.quantity; food.save()`:
update the stock column of the row with id `iid`. -/
def decStock (items : List FoodItem) (iid : Nat) (q : Nat) : List FoodItem :=
  items.map (fun it =>
    if it.id == iid then { it with stock := it.stock - (q : ℤ) } else it)

/-- The order item materialised from one cart line: the unit price is read
from the cached `food_item` of the pre-checkout state `st0`. -/
def mkOrderItem (st0 : St) (oid : Nat) (l : CartLine) : OrderItem :=
  { orderId := oid, itemId := l.itemId, quantity := l.quantity,
    price := priceOf st0 l.itemId }

/-- One iteration of the checkout loop (views.py lines 155-166): create the
`OrderItem` for the cart line, then decrement the item's stock. -/
def checkoutStep (st0 : St) (oid : Nat) (s : St) (l : CartLine) : St :=
  { s with
    orderItems := s.orderItems ++ [mkOrderItem st0 oid l],
    items := decStock s.items l.itemId l.quantity }

/-- The `Order` row created by the HTML `checkout` view (views.py lines
146-153): `total_price` is the cart subtotal, `tax` is 10% of it, and
`delivery_fee` keeps its model default 0; `status` and `payment_status`
keep their defaults `pending`. -/
def mkCheckoutOrder (st : St) (uid : Nat) (addr phone : String) : Order :=
  { id := st.nextId, userId := uid,
    totalPrice := cartSubtotal st uid,
    tax := cartSubtotal st uid * (1 / 10 : ℚ),
    deliveryFee := 0,
    deliveryAddress := addr, phone := phone,
    status := "pending", paymentStatus := "pending" }

/-- The `checkout` view, POST branch with a valid form (views.py lines
132-171): reject if the user's cart is empty (redirect, no mutation);
otherwise create the `Order`, loop over the cart lines creating one
`OrderItem` each and decrementing stock, and delete the user's cart lines.
No `DeliveryStatus` row is written and no transaction wraps the writes. -/
def checkout (st : St) (uid : Nat) (addr phone : String) :
    Option (Order × St) :=
  let lines := userCart st uid
  if lines.isEmpty then none
  else
    let order := mkCheckoutOrder st uid addr phone
    let s1 : St := { st with orders := st.orders ++ [order],
                             nextId := st.nextId + 1 }
    let s2 := lines.foldl (checkoutStep st order.id) s1
    let s3 : St := { s2 with cart := s2.cart.filter (fun l => l.userId != uid) }
    some (order, s3)

/-- The unhandled Python exceptions raised by `OrderViewSet.perform_create`.
`nameError`: on an empty cart the source line is
`raise serializers.ValidationError("Cart is empty")` (api_views.py line
275), but `api_views.py` never binds the name `serializers` (it imports
only individual serializer classes), so evaluating that statement raises
`NameError`, not a DRF validation error.  `typeError`: on a non-empty cart
the next computation, `tax = total_price * 0.10` (api_views.py line 278),
multiplies the `Decimal` cart subtotal by the float literal `0.10`, which
`decimal.Decimal` rejects with `TypeError`. -/
inductive ApiErr where
  | nameError
  | typeError
  deriving Repr, DecidableEq

instance {ε α : Type} [DecidableEq ε] [DecidableEq α] :
    DecidableEq (Except ε α) := fun a b =>
  match a, b with
  | .error e, .error f =>
    if h : e = f then .isTrue (by rw [h])
    else .isFalse (by intro hc; cases hc; exact h rfl)
  | .error _, .ok _ => .isFalse (by intro hc; cases hc)
  | .ok _, .error _ => .isFalse (by intro hc; cases hc)
  | .ok x, .ok y =>
    if h : x = y then .isTrue (by rw [h])
    else .isFalse (by intro hc; cases hc; exact h rfl)

/-- `OrderViewSet.perform_create` (api_views.py lines 271-306).  On an
empty cart the raise at line 275 is a `NameError` (see `ApiErr.nameError`)
before any write.  On a non-empty cart, `tax = total_price * 0.10` (line
278) raises `TypeError` (see `ApiErr.typeError`), also before any write:
the order creation, order-item loop, cart deletion, and delivery-status
insert below that line are unreachable, so the endpoint never mutates
anything. -/
def apiPerformCreate (st : St) (uid : Nat) (_addr _phone : String) :
    Except ApiErr (Order × St) :=
  let lines := userCart st uid
  if lines.isEmpty then .error .nameError
  else .error .typeError

/-- Update the `status` column of the order row with id `oid`
(`order.status = ...; order.save()`). -/
def setOrderStatus (orders : List Order) (oid : Nat) (s : String) :
    List Order :=
  orders.map (fun o => if o.id == oid then { o with status := s } else o)

/-- Update the `payment_status` column of the order row with id `oid`. -/
def setPaymentStatus (orders : List Order) (oid : Nat) (ps : String) :
    List Order :=
  orders.map (fun o => if o.id == oid then { o with paymentStatus := ps } else o)

/-- Outcome of `OrderViewSet.cancel`. -/
inductive CancelResult where
  | notFound
  | badRequest
  | ok
  deriving Repr, DecidableEq

/-- `OrderViewSet.cancel` (api_views.py lines 308-328): 404 if the order is
not found, 400 if `can_cancel` is false (state unchanged), otherwise set the
status to `cancelled` and append one `cancelled` `DeliveryStatus` row. -/
def orderCancel (st : St) (oid : Nat) : CancelResult × St :=
  match findOrder st oid with
  | none => (.notFound, st)
  | some o =>
    if !o.canCancel then (.badRequest, st)
    else
      (.ok, { st with
        orders := setOrderStatus st.orders oid "cancelled",
        deliveryLog := st.deliveryLog ++
          [{ orderId := oid, status := "cancelled",
             description := "Order cancelled by user" }] })

/-- `admin_order_detail`, POST branch (views.py lines 369-380): overwrite
the order's `status` with the posted value and save.  No `DeliveryStatus`
row is appended and no validation of the value is performed. -/
def adminOrderDetailPost (st : St) (oid : Nat) (newStatus : String) : St :=
  match findOrder st oid with
  | none => st
  | some _ => { st with orders := setOrderStatus st.orders oid newStatus }

/-- `OrderViewSet.destroy`: `OrderViewSet` is a `ModelViewSet` registered
on the `DefaultRouter` (api_urls.py line 12), so `DELETE /api/orders/{pk}/`
runs the default destroy action, `instance.delete()`.  `OrderItem.order`
(models.py line 300) and `DeliveryStatus.order` (models.py line 314) both
declare `on_delete=CASCADE`, so deleting the order also deletes its order
items and its entire delivery-status log. -/
def orderDestroy (st : St) (oid : Nat) : St :=
  match findOrder st oid with
  | none => st
  | some _ =>
    { st with
      orders := st.orders.filter (fun o => o.id != oid),
      orderItems := st.orderItems.filter (fun oi => oi.orderId != oid),
      deliveryLog := st.deliveryLog.filter (fun e => e.orderId != oid) }

/-- Outcome of `stripe.Webhook.construct_event` as seen by
`StripeWebhookView.post`:  `ValueError` (malformed payload),
`SignatureVerificationError`, or a parsed event carrying the event type and
the optional `metadata.order_id`. -/
inductive WebhookParse where
  | invalidPayload
  | invalidSignature
  | ok (eventType : String) (orderId : Option Nat)
  deriving Repr, DecidableEq

/-- `StripeWebhookView.post` (api_views.py lines 506-537): 400 with no
mutation on a malformed payload or bad signature; for an authenticated
`payment_intent.succeeded` event, set the referenced order's
`payment_status` to `paid` when the order id is present and known, and in
every authenticated case return 200. -/
def stripeWebhookPost (st : St) (p : WebhookParse) : Nat × St :=
  match p with
  | .invalidPayload => (400, st)
  | .invalidSignature => (400, st)
  | .ok etype oid? =>
    if etype == "payment_intent.succeeded" then
      match oid? with
      | some oid =>
        match findOrder st oid with
        | some _ => (200, { st with orders := setPaymentStatus st.orders oid "paid" })
        | none => (200, st)
      | none => (200, st)
    else (200, st)

/-! ### Checkout as a sequence of database writes

`checkout` issues its writes one by one with no surrounding transaction
(`views.py` neither imports `django.db.transaction` nor runs under
`ATOMIC_REQUESTS`), so an exception after the first `k` writes leaves
exactly those `k` writes applied.  `checkoutWrites` lists the writes in
source order; `runWrites` applies a prefix of them. -/

/-- The database writes issued by the `checkout` POST branch, in source
order: the `Order` insert, then per cart line the `OrderItem` insert
followed by the stock update, then the cart delete. -/
def checkoutWrites (st : St) (uid : Nat) (addr phone : String) :
    List (St → St) :=
  let lines := userCart st uid
  let order := mkCheckoutOrder st uid addr phone
  [fun s => { s with orders := s.orders ++ [order], nextId := s.nextId + 1 }] ++
    (lines.map (fun l =>
      [fun s => { s with orderItems := s.orderItems ++ [mkOrderItem st order.id l] },
       fun s => { s with items := decStock s.items l.itemId l.quantity }])).flatten ++
    [fun s => { s with cart := s.cart.filter (fun l => l.userId != uid) }]

/-- Apply the first `k` writes of `ws` to `s`: the state left behind when an
exception interrupts the sequence after `k` writes and nothing is rolled
back. -/
def runWrites (ws : List (St → St)) (k : Nat) (s : St) : St :=
  (ws.take k).foldl (fun s f => f s) s

/-! ### Feedback sentiment (`Feedback.save`, models.py lines 366-382) -/

/-- Substring containment on character lists: Python's `word in text`. -/
def charSub (needle : List Char) : List Char → Bool
  | [] => needle.isEmpty
  | c :: t => needle.isPrefixOf (c :: t) || charSub needle (c :: t).tail

/-- Python's `word in text` on strings. -/
def strContains (hay needle : String) : Bool :=
  charSub needle.toList hay.toList

/-- Python's `str.lower()`, character by character (the feedback texts are
ASCII, where Python and Lean lower-casing agree). -/
def pyLower (s : String) : String :=
  String.mk (s.toList.map Char.toLower)

/-- The fixed positive keyword list (models.py line 369). -/
def positiveWords : List String :=
  ["great", "excellent", "amazing", "love", "fantastic", "delicious",
   "perfect", "awesome", "good", "best", "wonderful"]

/-- The fixed negative keyword list (models.py line 370). -/
def negativeWords : List String :=
  ["bad", "terrible", "awful", "horrible", "worst", "disgusting", "slow",
   "cold", "rude", "disappointed"]

/-- `sum(1 for word in words if word in text)`. -/
def keywordCount (words : List String) (text : String) : Nat :=
  (words.filter (fun w => strContains text w)).length

/-- The sentiment stored by `Feedback.save`: lower-case the text, count the
positive and negative keywords contained in it, and compare. -/
def feedbackSentiment (raw : String) : String :=
  let text := pyLower raw
  let positiveCount := keywordCount positiveWords text
  let negativeCount := keywordCount negativeWords text
  if positiveCount > negativeCount then "positive"
  else if negativeCount > positiveCount then "negative"
  else "neutral"

/-! ### WebSocket consumers and the location relay (consumers.py) -/

/-- The identity in a WebSocket scope: `scope.get('user')` is `none` when
absent; `isAuthenticated` is Django's `user.is_authenticated`. -/
structure WsUser where
  id : Nat
  isAuthenticated : Bool
  deriving Repr, DecidableEq

/-- Result of a consumer's `connect`: accepted and joined to a broadcast
group, or closed. -/
inductive ConnectOutcome where
  | accepted (group : String)
  | closed
  deriving Repr, DecidableEq

/-- `DeliveryTrackingConsumer.connect` (consumers.py lines 18-35): join
`delivery_{order_id}` and accept.  No authentication or ownership check is
performed; the scope user is never consulted. -/
def deliveryConnect (_user : Option WsUser) (orderId : String) :
    ConnectOutcome :=
  .accepted ("delivery_" ++ orderId)

/-- `RiderTrackingConsumer.connect` (consumers.py lines 97-113): close
unless the scope user exists, is authenticated, and `str(user.id)` equals
the `rider_id` URL segment; otherwise join `rider_{rider_id}` and accept. -/
def riderConnect (user : Option WsUser) (riderId : String) : ConnectOutcome :=
  match user with
  | none => .closed
  | some u =>
    if !u.isAuthenticated || toString u.id != riderId then .closed
    else .accepted ("rider_" ++ riderId)

/-- The group name `AdminTrackingConsumer.connect` joins
(consumers.py line 188). -/
def adminTrackingGroup : String := "admin_tracking"

/-- `restaurant.models.RiderLocation`: one appended GPS sample. -/
structure RiderLocationSample where
  riderId : Nat
  latitude : ℚ
  longitude : ℚ
  accuracy : ℚ
  speed : ℚ
  heading : ℚ
  orderId : Option Nat
  deriving Repr, DecidableEq

/-- One `group_send` issued by the relay: the target group and the payload
fields shared by the delivery and admin broadcasts. -/
structure Publish where
  group : String
  eventType : String
  latitude : ℚ
  longitude : ℚ
  deriving Repr, DecidableEq

/-- Store plus channel layer as the relay sees them: the persisted
`RiderLocation` rows and the sequence of broadcasts issued. -/
structure RelaySt where
  riderLocations : List RiderLocationSample
  published : List Publish
  deriving Repr, DecidableEq

/-- An inbound `location_update` message on the rider socket. -/
structure LocationMsg where
  orderId : Option Nat
  latitude : ℚ
  longitude : ℚ
  deriving Repr, DecidableEq

/-- `RiderTrackingConsumer.receive` for a `location_update` message
(consumers.py lines 122-161): broadcast to `delivery_{order_id}` when an
order id is present, then broadcast to the `admin_riders` group, then ack
the rider.  No `RiderLocation` row is written. -/
def riderReceiveLocationUpdate (rs : RelaySt) (m : LocationMsg) : RelaySt :=
  let rs1 : RelaySt :=
    match m.orderId with
    | some oid =>
      { rs with published := rs.published ++
        [{ group := "delivery_" ++ toString oid,
           eventType := "rider_location_update",
           latitude := m.latitude, longitude := m.longitude }] }
    | none => rs
  { rs1 with published := rs1.published ++
    [{ group := "admin_riders", eventType := "rider_location_update",
       latitude := m.latitude, longitude := m.longitude }] }

/-- `UpdateLocationView.post` (api_views.py lines 374-421): 403 unless the
caller is a rider, 400 unless latitude and longitude are present, otherwise
append one `RiderLocation` row and return 201.  (The handler also caches
the coordinates on the rider profile; that cache is not part of the feed or
relay state.)  Nothing is published to any channel group. -/
def updateLocationPost (rs : RelaySt) (isRider : Bool) (riderId : Nat)
    (coords : Option (ℚ × ℚ)) (accuracy speed heading : ℚ)
    (orderId : Option Nat) : Nat × RelaySt :=
  if !isRider then (403, rs)
  else
    match coords with
    | none => (400, rs)
    | some (lat, lon) =>
      (201, { rs with riderLocations := rs.riderLocations ++
        [{ riderId := riderId, latitude := lat, longitude := lon,
           accuracy := accuracy, speed := speed, heading := heading,
           orderId := orderId }] })

/-! ### Normal forms of the two order-placement operations -/

/-- Total quantity of item `iid` ordered across the cart lines. -/
def orderedQty (lines : List CartLine) (iid : Nat) : ℤ :=
  ((lines.filter (fun l => l.itemId == iid)).map (fun l => (l.quantity : ℤ))).sum

/-- Closed form of the state left behind by a successful `checkout`. -/
def checkoutFinal (st : St) (uid : Nat) (addr phone : String) : St :=
  { items := (userCart st uid).foldl
      (fun its l => decStock its l.itemId l.quantity) st.items,
    cart := st.cart.filter (fun l => l.userId != uid),
    orders := st.orders ++ [mkCheckoutOrder st uid addr phone],
    orderItems := st.orderItems ++ (userCart st uid).map (mkOrderItem st st.nextId),
    deliveryLog := st.deliveryLog,
    nextId := st.nextId + 1 }

/-! ### Concrete states used by witnesses and counterexamples -/

/-- One food item (id 10, price 5, stock 10) and one cart line: user 1
ordered 2 of item 10. -/
def sampleSt : St :=
  { items := [{ id := 10, price := 5, stock := 10, isAvailable := true }],
    cart := [{ userId := 1, itemId := 10, quantity := 2 }],
    orders := [], orderItems := [], deliveryLog := [], nextId := 1 }

/-- The order produced by `checkout sampleSt 1 "a" "p"`. -/
def placedOrder : Order :=
  { id := 1, userId := 1, totalPrice := 10, tax := 1, deliveryFee := 0,
    deliveryAddress := "a", phone := "p", status := "pending",
    paymentStatus := "pending" }

/-- The state produced by `checkout sampleSt 1 "a" "p"`: stock decremented
to 8, cart cleared, no delivery-log entry. -/
def placedSt : St :=
  { items := [{ id := 10, price := 5, stock := 8, isAvailable := true }],
    cart := [],
    orders := [placedOrder],
    orderItems := [{ orderId := 1, itemId := 10, quantity := 2, price := 5 }],
    deliveryLog := [], nextId := 2 }

/-- A pending order of user 1 with its initial delivery-log entry. -/
def sampleOrder : Order :=
  { id := 1, userId := 1, totalPrice := 10, tax := 1, deliveryFee := 0,
    deliveryAddress := "a", phone := "p", status := "pending",
    paymentStatus := "pending" }

/-- State holding `sampleOrder` and its one-entry delivery log. -/
def orderSt : St :=
  { items := [], cart := [], orders := [sampleOrder], orderItems := [],
    deliveryLog := [{ orderId := 1, status := "pending",
                      description := "Order placed successfully" }],
    nextId := 2 }

theorem checkoutStep_foldl (st0 : St) (oid : Nat) (lines : List CartLine) :
    ∀ s : St, lines.foldl (checkoutStep st0 oid) s =
      { s with
        orderItems := s.orderItems ++ lines.map (mkOrderItem st0 oid),
        items := lines.foldl (fun its l => decStock its l.itemId l.quantity) s.items } := by
  induction lines with
  | nil => intro s; simp
  | cons l t ih =>
    intro s
    rw [List.foldl_cons, ih, List.foldl_cons]
    simp [checkoutStep]

theorem checkout_eq (st : St) (uid : Nat) (addr phone : String)
    (hne : userCart st uid ≠ []) :
    checkout st uid addr phone =
      some (mkCheckoutOrder st uid addr phone, checkoutFinal st uid addr phone) := by
  have hie : (userCart st uid).isEmpty = false := by
    rcases hc : userCart st uid with _ | ⟨l, t⟩
    · exact absurd hc hne
    · exact List.isEmpty_cons
  rw [checkout]
  simp only [hie, Bool.false_eq_true, if_false]
  rw [checkoutStep_foldl]
  rfl

theorem apiPerformCreate_nonempty (st : St) (uid : Nat) (addr phone : String)
    (hne : userCart st uid ≠ []) :
    apiPerformCreate st uid addr phone = .error .typeError := by
  have hie : (userCart st uid).isEmpty = false := by
    rcases hc : userCart st uid with _ | ⟨l, t⟩
    · exact absurd hc hne
    · exact List.isEmpty_cons
  rw [apiPerformCreate]
  simp only [hie, Bool.false_eq_true, if_false]

theorem decStock_foldl (lines : List CartLine) :
    ∀ items : List FoodItem,
      lines.foldl (fun its l => decStock its l.itemId l.quantity) items =
        items.map (fun it => { it with stock := it.stock - orderedQty lines it.id }) := by
  induction lines with
  | nil =>
    intro items
    have h : ∀ it ∈ items,
        it = { it with stock := it.stock - orderedQty [] it.id } := by
      intro it _
      simp [orderedQty]
    calc items = items.map (fun a => a) := (List.map_id' items).symm
      _ = _ := List.map_congr_left h
  | cons l t ih =>
    intro items
    rw [List.foldl_cons, ih, decStock, List.map_map]
    refine List.map_congr_left ?_
    intro it _
    by_cases h : it.id = l.itemId
    · have hb : (it.id == l.itemId) = true := by simp [h]
      have hb' : (l.itemId == it.id) = true := by simp [h]
      simp only [Function.comp, hb, if_true]
      have hq : orderedQty (l :: t) it.id = (l.quantity : ℤ) + orderedQty t it.id := by
        simp [orderedQty, hb']
      simp [hq, sub_sub]
    · have hb : (it.id == l.itemId) = false := by simp [h]
      have hb' : (l.itemId == it.id) = false := by simp [Ne.symm h]
      have hq : orderedQty (l :: t) it.id = orderedQty t it.id := by
        simp [orderedQty, hb']
      simp [Function.comp, hb, hq]

theorem cleared_userCart (xs : List CartLine) (uid : Nat) :
    (xs.filter (fun l => l.userId != uid)).filter (fun l => l.userId == uid) = [] := by
  rw [List.filter_filter, List.filter_eq_nil_iff]
  intro l _
  by_cases h : l.userId = uid <;> simp [h]

theorem find?_setOrderStatus (os : List Order) (oid : Nat) (s : String) :
    List.find? (fun o => o.id == oid) (setOrderStatus os oid s) =
      (List.find? (fun o => o.id == oid) os).map (fun o => { o with status := s }) := by
  induction os with
  | nil => rfl
  | cons o t ih =>
    simp only [setOrderStatus, List.map_cons] at ih ⊢
    by_cases h : (o.id == oid) = true
    · simp [List.find?_cons, h]
    · simp only [Bool.not_eq_true] at h
      rw [if_neg (by simp [h])]
      simp only [List.find?_cons]
      rw [h]
      exact ih

theorem find?_setPaymentStatus (os : List Order) (oid : Nat) (ps : String) :
    List.find? (fun o => o.id == oid) (setPaymentStatus os oid ps) =
      (List.find? (fun o => o.id == oid) os).map (fun o => { o with paymentStatus := ps }) := by
  induction os with
  | nil => rfl
  | cons o t ih =>
    simp only [setPaymentStatus, List.map_cons] at ih ⊢
    by_cases h : (o.id == oid) = true
    · simp [List.find?_cons, h]
    · simp only [Bool.not_eq_true] at h
      rw [if_neg (by simp [h])]
      simp only [List.find?_cons]
      rw [h]
      exact ih

theorem mem_setPaymentStatus_of_ne (os : List Order) (oid : Nat) (ps : String)
    (o : Order) (ho : o ∈ os) (hne : o.id ≠ oid) :
    o ∈ setPaymentStatus os oid ps := by
  have h : (if o.id == oid then { o with paymentStatus := ps } else o) = o := by
    simp [hne]
  exact h ▸ List.mem_map_of_mem _ ho


/-! ### Claim theorems -/

theorem subtotal_created (st : St) (uid : Nat) (old : List OrderItem)
    (hfresh : ∀ oi ∈ old, oi.orderId ≠ st.nextId) :
    (((old ++ (userCart st uid).map (mkOrderItem st st.nextId)).filter
        (fun oi => oi.orderId == st.nextId)).map
      (fun oi => (oi.quantity : ℚ) * oi.price)).sum = cartSubtotal st uid := by
  rw [List.filter_append]
  have h1 : old.filter (fun oi => oi.orderId == st.nextId) = [] := by
    rw [List.filter_eq_nil_iff]
    intro oi hoi
    simp [hfresh oi hoi]
  have h2 : ((userCart st uid).map (mkOrderItem st st.nextId)).filter
      (fun oi => oi.orderId == st.nextId) =
        (userCart st uid).map (mkOrderItem st st.nextId) := by
    rw [List.filter_eq_self]
    intro oi hoi
    obtain ⟨l, _, rfl⟩ := List.mem_map.mp hoi
    simp [mkOrderItem]
  rw [h1, h2, List.nil_append, List.map_map]
  rfl

/-- C1 (code bug): via the HTML checkout, a non-empty cart yields an order
whose grand total equals the order-item subtotal plus tax plus delivery
fee, whose tax is 10% of that subtotal, whose order items carry the unit
price copied from the food item at that instant, and the user's cart is
empty afterwards — exactly as the claim states; but the API order-creation
path raises `TypeError` at its tax computation (`Decimal * 0.10`,
api_views.py line 278) before any write, so it never creates the claimed
order at all. -/
theorem order_placement_totals (st : St) (uid : Nat) (addr phone : String)
    (hne : userCart st uid ≠ [])
    (hfresh : ∀ oi ∈ st.orderItems, oi.orderId ≠ st.nextId) :
    (∃ ord st', checkout st uid addr phone = some (ord, st') ∧
      ord.grandTotal = orderItemsSubtotal st' ord.id + ord.tax + ord.deliveryFee ∧
      ord.tax = orderItemsSubtotal st' ord.id * (1 / 10 : ℚ) ∧
      (∀ oi ∈ st'.orderItems, oi.orderId = ord.id → oi.price = priceOf st oi.itemId) ∧
      userCart st' uid = []) ∧
    apiPerformCreate st uid addr phone = .error .typeError := by
  have hsub : orderItemsSubtotal (checkoutFinal st uid addr phone)
      (mkCheckoutOrder st uid addr phone).id = cartSubtotal st uid :=
    subtotal_created st uid st.orderItems hfresh
  constructor
  · refine ⟨_, _, checkout_eq st uid addr phone hne, ?_, ?_, ?_, ?_⟩
    · rw [hsub]; rfl
    · rw [hsub]; rfl
    · intro oi hoi hid
      rcases List.mem_append.mp hoi with hl | hr
      · exact absurd hid (hfresh oi hl)
      · obtain ⟨l, _, rfl⟩ := List.mem_map.mp hr
        rfl
    · exact cleared_userCart st.cart uid
  · exact apiPerformCreate_nonempty st uid addr phone hne

/-- Witness for C1 at the concrete one-line cart `sampleSt`. -/
theorem order_placement_totals_witness :
    (∃ ord st', checkout sampleSt 1 "a" "p" = some (ord, st') ∧
      ord.grandTotal = orderItemsSubtotal st' ord.id + ord.tax + ord.deliveryFee ∧
      ord.tax = orderItemsSubtotal st' ord.id * (1 / 10 : ℚ) ∧
      (∀ oi ∈ st'.orderItems, oi.orderId = ord.id → oi.price = priceOf sampleSt oi.itemId) ∧
      userCart st' 1 = []) ∧
    apiPerformCreate sampleSt 1 "a" "p" = .error .typeError :=
  order_placement_totals sampleSt 1 "a" "p" (by decide) (by decide)

/-- C2 counterexample: on the concrete cart `sampleSt`, the HTML checkout
succeeds but appends no delivery-status entry, and the API create raises
`TypeError` before any write — so no placement path both decrements stock
and appends the initial pending entry. -/
theorem placement_effects_cex :
    checkout sampleSt 1 "a" "p" = some (placedOrder, placedSt) ∧
    placedSt.deliveryLog = [] ∧
    apiPerformCreate sampleSt 1 "a" "p" = .error .typeError := by
  decide

/-- C2 amended: placing an order via the HTML checkout decrements each
ordered item's stock by the ordered quantity but appends no delivery-status
entry; the API order-creation path raises `TypeError` at its tax
computation before any write, so it neither decrements stock nor appends an
entry — no placement path appends the initial pending entry. -/
theorem placement_stock_vs_log (st : St) (uid : Nat) (addr phone : String)
    (hne : userCart st uid ≠ []) :
    (∃ ord st', checkout st uid addr phone = some (ord, st') ∧
       st'.deliveryLog = st.deliveryLog ∧
       st'.items = st.items.map (fun it =>
         { it with stock := it.stock - orderedQty (userCart st uid) it.id })) ∧
    apiPerformCreate st uid addr phone = .error .typeError := by
  constructor
  · refine ⟨_, _, checkout_eq st uid addr phone hne, rfl, ?_⟩
    exact decStock_foldl (userCart st uid) st.items
  · exact apiPerformCreate_nonempty st uid addr phone hne

/-- Witness for the amended C2 at the concrete cart `sampleSt`. -/
theorem placement_stock_vs_log_witness :
    (∃ ord st', checkout sampleSt 1 "a" "p" = some (ord, st') ∧
       st'.deliveryLog = sampleSt.deliveryLog ∧
       st'.items = sampleSt.items.map (fun it =>
         { it with stock := it.stock - orderedQty (userCart sampleSt 1) it.id })) ∧
    apiPerformCreate sampleSt 1 "a" "p" = .error .typeError :=
  placement_stock_vs_log sampleSt 1 "a" "p" (by decide)

/-- C4: attempting to place an order with an empty cart performs no
mutation, but the API path raises `NameError` (an unhandled 500), not the
intended DRF validation error, because `api_views.py` never binds the name
`serializers`; the HTML path redirects away without mutating. -/
theorem empty_cart_rejection (st : St) (uid : Nat) (addr phone : String)
    (hempty : userCart st uid = []) :
    apiPerformCreate st uid addr phone = .error .nameError ∧
    checkout st uid addr phone = none := by
  have hie : (userCart st uid).isEmpty = true := by rw [hempty]; rfl
  constructor
  · rw [apiPerformCreate]
    simp only [hie, if_true]
  · rw [checkout]
    simp only [hie, if_true]

/-- Witness for C4: user 2 has no cart lines in `sampleSt`. -/
theorem empty_cart_rejection_witness :
    apiPerformCreate sampleSt 2 "a" "p" = .error .nameError ∧
    checkout sampleSt 2 "a" "p" = none :=
  empty_cart_rejection sampleSt 2 "a" "p" (by decide)

theorem writes_flatten_foldl (st0 : St) (oid : Nat) (lines : List CartLine) :
    ∀ s : St,
      ((lines.map (fun l =>
        [fun s => { s with orderItems := s.orderItems ++ [mkOrderItem st0 oid l] },
         fun s => { s with items := decStock s.items l.itemId l.quantity }])).flatten).foldl
        (fun s f => f s) s = lines.foldl (checkoutStep st0 oid) s := by
  induction lines with
  | nil => intro s; rfl
  | cons l t ih =>
    intro s
    rw [List.map_cons, List.flatten_cons, List.foldl_append]
    exact ih (checkoutStep st0 oid s l)

theorem runWrites_all (st : St) (uid : Nat) (addr phone : String) :
    runWrites (checkoutWrites st uid addr phone)
      (checkoutWrites st uid addr phone).length st =
      checkoutFinal st uid addr phone := by
  rw [runWrites, List.take_length]
  simp only [checkoutWrites]
  rw [List.foldl_append, List.foldl_append, writes_flatten_foldl, checkoutStep_foldl]
  rfl

/-- C3 counterexample: on the concrete cart `sampleSt`, stopping the write
sequence of `checkout` after its first write (the `Order` insert) is a
mid-sequence failure (4 writes total), yet the `Order` row remains applied
while the cart line is still present — the earlier steps are not rolled
back. -/
theorem checkout_midfail_cex :
    1 < (checkoutWrites sampleSt 1 "a" "p").length ∧
    (runWrites (checkoutWrites sampleSt 1 "a" "p") 1 sampleSt).orders =
      [placedOrder] ∧
    (runWrites (checkoutWrites sampleSt 1 "a" "p") 1 sampleSt).cart =
      [{ userId := 1, itemId := 10, quantity := 2 }] ∧
    sampleSt.orders = [] := by
  decide

/-- C3 amended: order placement is not all-or-nothing.  `checkout` issues
its writes sequentially with no transaction: running the full write list
reproduces the checkout result, while a failure after the first write (the
`Order` insert) leaves the `Order` row applied with the cart lines and
stock untouched. -/
theorem checkout_not_atomic (st : St) (uid : Nat) (addr phone : String)
    (hne : userCart st uid ≠ []) :
    (∀ ord st', checkout st uid addr phone = some (ord, st') →
       runWrites (checkoutWrites st uid addr phone)
         (checkoutWrites st uid addr phone).length st = st') ∧
    ((runWrites (checkoutWrites st uid addr phone) 1 st).orders =
       st.orders ++ [mkCheckoutOrder st uid addr phone]) ∧
    (userCart (runWrites (checkoutWrites st uid addr phone) 1 st) uid =
       userCart st uid) ∧
    ((runWrites (checkoutWrites st uid addr phone) 1 st).items = st.items) ∧
    userCart st uid ≠ [] := by
  refine ⟨?_, rfl, rfl, rfl, hne⟩
  intro ord st' heq
  rw [checkout_eq st uid addr phone hne] at heq
  simp only [Option.some.injEq, Prod.mk.injEq] at heq
  rw [runWrites_all, ← heq.2]

/-- Witness for the amended C3 at the concrete cart `sampleSt`. -/
theorem checkout_not_atomic_witness :
    runWrites (checkoutWrites sampleSt 1 "a" "p")
      (checkoutWrites sampleSt 1 "a" "p").length sampleSt = placedSt ∧
    userCart sampleSt 1 ≠ [] :=
  ⟨(checkout_not_atomic sampleSt 1 "a" "p" (by decide)).1 placedOrder placedSt
     (by decide),
   (checkout_not_atomic sampleSt 1 "a" "p" (by decide)).2.2.2.2⟩

/-- C5: `can_cancel` is true exactly when the status is pending or
confirmed; the cancel endpoint rejects with 400 and leaves the state
unchanged when `can_cancel` is false, and otherwise sets the order's status
to cancelled. -/
theorem cancel_guard (st : St) (oid : Nat) (o : Order)
    (hfind : findOrder st oid = some o) :
    (o.canCancel = true ↔ (o.status = "pending" ∨ o.status = "confirmed")) ∧
    (o.canCancel = false → orderCancel st oid = (.badRequest, st)) ∧
    (o.canCancel = true → ∃ st', orderCancel st oid = (.ok, st') ∧
       findOrder st' oid = some { o with status := "cancelled" }) := by
  refine ⟨?_, ?_, ?_⟩
  · simp [Order.canCancel]
  · intro h
    simp only [orderCancel, hfind]
    simp [h]
  · intro h
    have hstep : orderCancel st oid =
        (.ok, { st with orders := setOrderStatus st.orders oid "cancelled",
                        deliveryLog := st.deliveryLog ++
                          [{ orderId := oid, status := "cancelled",
                             description := "Order cancelled by user" }] }) := by
      simp only [orderCancel, hfind]
      simp [h]
    refine ⟨_, hstep, ?_⟩
    show List.find? (fun o => o.id == oid) (setOrderStatus st.orders oid "cancelled") = _
    rw [find?_setOrderStatus]
    have hf : List.find? (fun o => o.id == oid) st.orders = some o := hfind
    rw [hf]
    rfl

/-- Witness for C5: `sampleOrder` is pending, so it can be cancelled, and
cancelling it in `orderSt` marks it cancelled. -/
theorem cancel_guard_witness :
    (sampleOrder.canCancel = true ↔
      (sampleOrder.status = "pending" ∨ sampleOrder.status = "confirmed")) ∧
    (∃ st', orderCancel orderSt 1 = (.ok, st') ∧
       findOrder st' 1 = some { sampleOrder with status := "cancelled" }) :=
  ⟨(cancel_guard orderSt 1 sampleOrder (by decide)).1,
   (cancel_guard orderSt 1 sampleOrder (by decide)).2.2 (by decide)⟩

/-- C6 counterexample: in `orderSt`, the admin status-update view changes
`sampleOrder` from pending to preparing while the delivery log stays
exactly as before (no entry appended for the transition), and the
router-exposed order destroy cascade-deletes the order's existing
delivery-log entry (the log shrinks from one entry to none). -/
theorem admin_status_update_cex :
    adminOrderDetailPost orderSt 1 "preparing" =
      { orderSt with orders := [{ sampleOrder with status := "preparing" }] } ∧
    sampleOrder.status = "pending" ∧
    ({ orderSt with orders := [{ sampleOrder with status := "preparing" }] } : St).deliveryLog
      = orderSt.deliveryLog ∧
    orderSt.deliveryLog ≠ [] ∧
    (orderDestroy orderSt 1).deliveryLog = [] := by
  decide

/-- C6 amended: the API cancel appends exactly one `cancelled` entry for
its transition and a failed cancel leaves the state untouched; but the
admin status-update view changes the status field while appending nothing,
and the router-exposed order destroy removes every delivery-log entry of
the deleted order — so the log is neither extended on every transition nor
safe from removal. -/
theorem status_log_operations (st : St) (oid : Nat) (newStatus : String) :
    (adminOrderDetailPost st oid newStatus).deliveryLog = st.deliveryLog ∧
    ((orderCancel st oid).1 = .ok →
       (orderCancel st oid).2.deliveryLog = st.deliveryLog ++
         [{ orderId := oid, status := "cancelled",
            description := "Order cancelled by user" }]) ∧
    ((orderCancel st oid).1 ≠ .ok → (orderCancel st oid).2 = st) ∧
    (∀ o, findOrder st oid = some o →
       (orderDestroy st oid).deliveryLog =
         st.deliveryLog.filter (fun e => e.orderId != oid)) := by
  refine ⟨?_, ?_, ?_, ?_⟩
  · rcases h : findOrder st oid with _ | o <;> simp [adminOrderDetailPost, h]
  · intro hok
    rcases h : findOrder st oid with _ | o
    · simp [orderCancel, h] at hok
    · by_cases hc : o.canCancel = true
      · simp [orderCancel, h, hc]
      · simp only [Bool.not_eq_true] at hc
        simp [orderCancel, h, hc] at hok
  · intro hne
    rcases h : findOrder st oid with _ | o
    · simp [orderCancel, h]
    · by_cases hc : o.canCancel = true
      · exact absurd (by simp [orderCancel, h, hc]) hne
      · simp only [Bool.not_eq_true] at hc
        simp [orderCancel, h, hc]
  · intro o hfind
    simp [orderDestroy, hfind]

/-- Witness for the amended C6 at `orderSt`, where the cancel succeeds and
the destroy removes the only log entry. -/
theorem status_log_operations_witness :
    (adminOrderDetailPost orderSt 1 "preparing").deliveryLog = orderSt.deliveryLog ∧
    (orderCancel orderSt 1).2.deliveryLog = orderSt.deliveryLog ++
      [{ orderId := 1, status := "cancelled",
         description := "Order cancelled by user" }] ∧
    (orderDestroy orderSt 1).deliveryLog =
      orderSt.deliveryLog.filter (fun e => e.orderId != 1) :=
  ⟨(status_log_operations orderSt 1 "preparing").1,
   (status_log_operations orderSt 1 "preparing").2.1 (by decide),
   (status_log_operations orderSt 1 "preparing").2.2.2 sampleOrder (by decide)⟩

/-- C7 counterexample: handling a concrete `location_update` ping tagged
with order 3 publishes to `delivery_3` and to `admin_riders`, yet the
persisted `RiderLocation` store stays empty — an observer of the delivery
topic sees a location update the store does not have. -/
theorem relay_ping_not_persisted_cex :
    riderReceiveLocationUpdate { riderLocations := [], published := [] }
        { orderId := some 3, latitude := 1, longitude := 2 } =
      { riderLocations := [],
        published := [{ group := "delivery_3",
                        eventType := "rider_location_update",
                        latitude := 1, longitude := 2 },
                      { group := "admin_riders",
                        eventType := "rider_location_update",
                        latitude := 1, longitude := 2 }] } := by
  decide

/-- C7 amended: the WebSocket relay republishes a tagged location ping to
the order's delivery topic and then to the `admin_riders` group (which is
not the `admin_tracking` group the admin consumer joins) without persisting
any `RiderLocation` row; persistence happens only through the separate HTTP
location endpoint, which publishes nothing. -/
theorem relay_publish_without_persist (rs : RelaySt) (m : LocationMsg)
    (oid : Nat) (hoid : m.orderId = some oid) :
    ((riderReceiveLocationUpdate rs m).riderLocations = rs.riderLocations) ∧
    ((riderReceiveLocationUpdate rs m).published = rs.published ++
       [{ group := "delivery_" ++ toString oid,
          eventType := "rider_location_update",
          latitude := m.latitude, longitude := m.longitude },
        { group := "admin_riders", eventType := "rider_location_update",
          latitude := m.latitude, longitude := m.longitude }]) ∧
    ("admin_riders" : String) ≠ adminTrackingGroup ∧
    (∀ (rid : Nat) (lat lon acc sp hd : ℚ) (o : Option Nat),
       updateLocationPost rs true rid (some (lat, lon)) acc sp hd o =
         (201, { rs with riderLocations := rs.riderLocations ++
            [{ riderId := rid, latitude := lat, longitude := lon,
               accuracy := acc, speed := sp, heading := hd,
               orderId := o }] })) := by
  refine ⟨?_, ?_, by decide, ?_⟩
  · simp [riderReceiveLocationUpdate, hoid]
  · simp [riderReceiveLocationUpdate, hoid]
  · intro rid lat lon acc sp hd o
    rfl

/-- Witness for the amended C7 at a concrete ping for order 3. -/
theorem relay_publish_without_persist_witness :
    ((riderReceiveLocationUpdate { riderLocations := [], published := [] }
        { orderId := some 3, latitude := 1, longitude := 2 }).riderLocations =
      ([] : List RiderLocationSample)) ∧
    ((riderReceiveLocationUpdate { riderLocations := [], published := [] }
        { orderId := some 3, latitude := 1, longitude := 2 }).published =
      [] ++
       [{ group := "delivery_" ++ toString 3,
          eventType := "rider_location_update", latitude := 1, longitude := 2 },
        { group := "admin_riders", eventType := "rider_location_update",
          latitude := 1, longitude := 2 }]) :=
  ⟨(relay_publish_without_persist { riderLocations := [], published := [] }
      { orderId := some 3, latitude := 1, longitude := 2 } 3 rfl).1,
   (relay_publish_without_persist { riderLocations := [], published := [] }
      { orderId := some 3, latitude := 1, longitude := 2 } 3 rfl).2.1⟩

/-- C8: the webhook handler returns 400 with no mutation on a malformed
payload or invalid signature; on an authenticated payment-succeeded event
it sets the referenced order's payment status to paid when the order id is
known (leaving other orders in place), and returns 200 with no mutation
when the order id is unknown or absent. -/
theorem stripe_webhook_behavior (st : St) (oid : Nat) (etype : String) :
    stripeWebhookPost st .invalidPayload = (400, st) ∧
    stripeWebhookPost st .invalidSignature = (400, st) ∧
    (∀ o, findOrder st oid = some o →
      stripeWebhookPost st (.ok "payment_intent.succeeded" (some oid)) =
        (200, { st with orders := setPaymentStatus st.orders oid "paid" }) ∧
      findOrder { st with orders := setPaymentStatus st.orders oid "paid" } oid =
        some { o with paymentStatus := "paid" } ∧
      (∀ o' ∈ st.orders, o'.id ≠ oid →
        o' ∈ ({ st with orders := setPaymentStatus st.orders oid "paid" } : St).orders)) ∧
    (findOrder st oid = none →
      stripeWebhookPost st (.ok "payment_intent.succeeded" (some oid)) = (200, st)) ∧
    stripeWebhookPost st (.ok etype none) = (200, st) := by
  refine ⟨rfl, rfl, ?_, ?_, ?_⟩
  · intro o hfind
    refine ⟨?_, ?_, ?_⟩
    · simp [stripeWebhookPost, hfind]
    · show List.find? (fun o => o.id == oid) (setPaymentStatus st.orders oid "paid") = _
      rw [find?_setPaymentStatus]
      have hf : List.find? (fun o => o.id == oid) st.orders = some o := hfind
      rw [hf]
      rfl
    · intro o' ho' hne
      exact mem_setPaymentStatus_of_ne st.orders oid "paid" o' ho' hne
  · intro hnone
    simp [stripeWebhookPost, hnone]
  · by_cases h : (etype == "payment_intent.succeeded") = true
    · simp [stripeWebhookPost, h]
    · simp only [Bool.not_eq_true] at h
      simp [stripeWebhookPost, h]

/-- Witness for C8 at `orderSt`: order 1 exists and becomes paid; order 99
is unknown and the state is untouched. -/
theorem stripe_webhook_behavior_witness :
    stripeWebhookPost orderSt (.ok "payment_intent.succeeded" (some 1)) =
      (200, { orderSt with orders := setPaymentStatus orderSt.orders 1 "paid" }) ∧
    stripeWebhookPost orderSt (.ok "payment_intent.succeeded" (some 99)) =
      (200, orderSt) :=
  ⟨((stripe_webhook_behavior orderSt 1 "x").2.2.1 sampleOrder (by decide)).1,
   (stripe_webhook_behavior orderSt 99 "x").2.2.2.1 (by decide)⟩

/-- C9: the stored sentiment compares the number of positive and negative
keywords contained (as substrings) in the lower-cased feedback text —
positive when the positive count is larger, negative when the negative
count is larger, neutral on ties — and the three reference texts classify
as positive, negative and neutral respectively. -/
theorem feedback_sentiment_contract (raw : String) :
    (keywordCount positiveWords (pyLower raw) >
        keywordCount negativeWords (pyLower raw) →
      feedbackSentiment raw = "positive") ∧
    (keywordCount negativeWords (pyLower raw) >
        keywordCount positiveWords (pyLower raw) →
      feedbackSentiment raw = "negative") ∧
    (keywordCount positiveWords (pyLower raw) =
        keywordCount negativeWords (pyLower raw) →
      feedbackSentiment raw = "neutral") ∧
    feedbackSentiment "This was great and amazing" = "positive" ∧
    feedbackSentiment "terrible and awful" = "negative" ∧
    feedbackSentiment "it was ok" = "neutral" := by
  refine ⟨?_, ?_, ?_, by decide, by decide, by decide⟩
  · intro h
    simp only [feedbackSentiment]
    rw [if_pos h]
  · intro h
    simp only [feedbackSentiment]
    rw [if_neg (by omega), if_pos h]
  · intro h
    simp only [feedbackSentiment]
    rw [if_neg (by omega), if_neg (by omega)]

/-- Witness for C9: "good day" contains one positive and no negative
keyword, so the first branch applies. -/
theorem feedback_sentiment_contract_witness :
    feedbackSentiment "good day" = "positive" :=
  (feedback_sentiment_contract "good day").1 (by decide)

/-- C10: connecting to a per-order delivery topic is always accepted and
joined to `delivery_{order_id}` with no authentication or ownership check,
for any scope user; a rider-topic connection is accepted exactly when the
scope user exists, is authenticated, and its id printed as a string equals
the rider id in the topic. -/
theorem tracking_connect_auth :
    (∀ (user : Option WsUser) (orderId : String),
       deliveryConnect user orderId = .accepted ("delivery_" ++ orderId)) ∧
    (∀ (user : Option WsUser) (riderId : String),
       riderConnect user riderId = .accepted ("rider_" ++ riderId) ↔
         ∃ u, user = some u ∧ u.isAuthenticated = true ∧
           toString u.id = riderId) := by
  constructor
  · intro user orderId
    rfl
  · intro user riderId
    cases user with
    | none => simp [riderConnect]
    | some u =>
      rw [riderConnect]
      by_cases h1 : u.isAuthenticated = true
      · by_cases h2 : toString u.id = riderId
        · simp [h1, h2]
        · simp [h1, h2]
      · simp only [Bool.not_eq_true] at h1
        simp [h1]

end FoodOrdering
